import Mathlib

/-!
Verification of the ZAI catalog-and-review application's query and account
layer (`src/database.rs`), shallowly embedded in Lean 4.

The Postgres database is modelled as an explicit state (`DBState`) holding the
`users`, `items` and `reviews` tables plus a clock value used for `now()`.
Each Rust function of `database.rs` becomes a Lean function over `DBState`;
fallible functions return `Except DatabaseError`.  External collaborators that
are delegated to libraries or to Postgres extensions — the pg_trgm similarity
operator and `SIMILARITY` function, the password strength scorer, and the
Argon2 hasher/verifier — are abstracted as an `Externals` record of functions,
since their implementations are outside the repository.  Infrastructure
failures of the sqlx driver (connection loss etc.), which Rust wraps as
`InternalError`, are outside this sequential model: queries always answer.
-/

deriving instance DecidableEq for Except

namespace ZAI

/-- Rust `str::trim` (ASCII-whitespace model), defined structurally over the
character list so that it evaluates inside the kernel. -/
def strTrim (x : String) : String :=
  String.mk (((x.data.dropWhile Char.isWhitespace).reverse.dropWhile Char.isWhitespace).reverse)

/-- Boolean pairwise check, used to state the store's uniqueness constraints
executably. -/
def pairwiseBool {α : Type} (p : α → α → Bool) : List α → Bool
  | [] => true
  | x :: xs => xs.all (p x) && pairwiseBool p xs

/-- The error taxonomy of `database.rs` (`enum DatabaseError`).  The Rust
`InternalError` variant carries a boxed source error; the payload is dropped
here. -/
inductive DatabaseError where
  | InternalError
  | IncorrectCredentials
  | EmptyFields
  | PasswordsDiffer
  | WeakPassword
  | DuplicateUser
  | DuplicateItem
  | IllegalUsername
  | NotValidImage
  | IllegalLocator
  deriving DecidableEq

/-- External collaborators of `database.rs`, abstracted as functions:
`similarEnough a b` is the pg_trgm `a % b` operator, `simKey a b` an integer
ordering key for `SIMILARITY(a,b)`, `score` the `passwords` crate's
`scorer::score(analyzer::analyze(p))` on a 0–100 scale, `hashPW` the Argon2
hash of a password, `verifyPW p h` Argon2 verification of password `p` against
stored hash `h`, and `defaultHue` the schema default for `avatar_hue`. -/
structure Externals where
  similarEnough : String → String → Bool
  simKey : String → String → Int
  score : String → Int
  hashPW : String → String
  verifyPW : String → String → Bool
  defaultHue : Int

/-- A row of the `users` table. -/
structure UserRow where
  id : Nat
  username : String
  password_hash : String
  is_admin : Bool
  avatar_hue : Int
  has_avatar : Bool
  deriving DecidableEq

/-- A row of the `items` table (base columns only; the scoring columns live in
the derived `items_score` view). -/
structure ItemRow where
  id : Nat
  locator : String
  title : String
  description : String
  deriving DecidableEq

/-- A row of the `reviews` table; `date` is a timestamp modelled as `Nat`. -/
structure ReviewRow where
  item_id : Nat
  user_id : Nat
  rating : Int
  date : Nat
  deriving DecidableEq

/-- The database state: the three tables, the serial counter for fresh user
ids, and the current time returned by `now()`. -/
structure DBState where
  users : List UserRow
  items : List ItemRow
  reviews : List ReviewRow
  nextUserId : Nat
  now : Nat
  deriving DecidableEq

/-- The Rust `User` struct returned by queries. -/
structure User where
  username : String
  is_admin : Bool
  avatar_hue : Int
  has_avatar : Bool
  deriving DecidableEq

/-- The Rust `Item` struct: a row of the `items_score` view.  Rust's `f32`
`score` is modelled as an integer scaled by 100. -/
structure Item where
  locator : String
  title : String
  description : String
  score : Int
  review_count : Int
  rank : Int
  popularity : Int
  deriving DecidableEq

/-- The Rust `Page<T>` struct. -/
structure Page (T : Type) where
  target : String
  items : List T
  current_page : Int
  number_of_pages : Int
  query : Option String
  deriving DecidableEq

/-- The Rust `RatingItem` struct (one row of an item's rating history). -/
structure RatingItem where
  user : User
  rating : Int
  date : Nat
  deriving DecidableEq

/-- The Rust `RatingUser` struct (one row of a user's rating history). -/
structure RatingUser where
  item : Item
  rating : Int
  date : Nat
  deriving DecidableEq

/-- `SELECT id FROM users WHERE username=$1 LIMIT 1`. -/
def findUserId (s : DBState) (username : String) : Option Nat :=
  (s.users.find? (fun u => u.username == username)).map (fun u => u.id)

/-- `SELECT id FROM items WHERE locator=$1 LIMIT 1`. -/
def findItemId (s : DBState) (locator : String) : Option Nat :=
  (s.items.find? (fun i => i.locator == locator)).map (fun i => i.id)

/-- The Rust regex `^\w+$` used for usernames and locators (ASCII model of
`\w`): nonempty and every character alphanumeric or underscore. -/
def wordMatch (x : String) : Bool :=
  !x.isEmpty && x.toList.all (fun c => c.isAlphanum || c == '_')

/-- Rust `usize::div_ceil`. -/
def divCeil (n d : Nat) : Nat := (n + d - 1) / d

/-- Insert `x` into `l` before the first element `y` with `le x y` false
failing; auxiliary for `sortBy`. -/
def insertSorted {α : Type} (le : α → α → Bool) (x : α) : List α → List α
  | [] => [x]
  | y :: ys => if le x y then x :: y :: ys else y :: insertSorted le x ys

/-- Insertion sort by a boolean "comes no later than" relation; models SQL
`ORDER BY`. -/
def sortBy {α : Type} (le : α → α → Bool) : List α → List α
  | [] => []
  | x :: xs => insertSorted le x (sortBy le xs)

/-- SQL `LIMIT pageSize OFFSET pageSize * p`. -/
def pageSlice {α : Type} (xs : List α) (pageSize : Nat) (p : Int) : List α :=
  (xs.drop (pageSize * p.toNat)).take pageSize

/-- Modelled from the spec: the `items_score` database view, whose SQL
definition is not under `src/` (spec §6: a derived view exposing
`(locator, title, description, score, review_count, rank, popularity)`
computed from `items` aggregated over `reviews`; §3: `score` is the mean
rating scaled to 0–10, `rank` the dense rank by score, `popularity` the dense
rank by review count).  `score` is represented scaled by 100 to stay integral
and is 0 for an unreviewed item; each view row is paired with the item id used
for joins. -/
def itemsScoreView (s : DBState) : List (Nat × Item) :=
  let base := s.items.map (fun i =>
    let rs := s.reviews.filter (fun r => r.item_id == i.id)
    let cnt := rs.length
    let sc : Int := if cnt = 0 then 0 else (100 * (rs.map (fun r => r.rating)).sum) / cnt
    (i, cnt, sc))
  base.map (fun t =>
    let rank : Int := 1 + ((base.map (fun b => b.2.2)).filter (fun x => decide (t.2.2 < x))).dedup.length
    let pop : Int := 1 + ((base.map (fun b => b.2.1)).filter (fun x => decide (t.2.1 < x))).dedup.length
    (t.1.id,
      { locator := t.1.locator, title := t.1.title, description := t.1.description,
        score := t.2.2, review_count := (t.2.1 : Int), rank := rank, popularity := pop }))

/-- The row count behind `get_items`' page computation: `COUNT(*)` over
`items`, filtered by `title % query` when a search query is present. -/
def itemsMatchCount (E : Externals) (s : DBState) (q : Option String) : Nat :=
  match q with
  | some q => (s.items.filter (fun i => E.similarEnough i.title q)).length
  | none => s.items.length

/-- The row count behind `get_users`' page computation. -/
def usersMatchCount (E : Externals) (s : DBState) (q : Option String) : Nat :=
  match q with
  | some q => (s.users.filter (fun u => E.similarEnough u.username q)).length
  | none => s.users.length

/-- Projection of a `users` row to the Rust `User` struct. -/
def UserRow.toUser (u : UserRow) : User :=
  { username := u.username, is_admin := u.is_admin,
    avatar_hue := u.avatar_hue, has_avatar := u.has_avatar }

/-- `get_items` of `database.rs`: count matching items, compute
`number_of_pages = count.div_ceil(12)`, and return `None` unless the requested
page (default 0) lies in `0..number_of_pages`; otherwise the requested slice of
the `items_score` view, ordered by similarity then score when searching, else
by score. -/
def get_items (E : Externals) (s : DBState) (page_number : Option Int)
    (q : Option String) : Option (Page Item) :=
  if 0 ≤ page_number.getD 0 ∧
      page_number.getD 0 < ((divCeil (itemsMatchCount E s q) 12 : Nat) : Int) then
    some { target := "/items",
           items :=
             match q with
             | some qs =>
               pageSlice (sortBy (fun a b =>
                   decide (E.simKey b.title qs < E.simKey a.title qs ∨
                     (E.simKey a.title qs = E.simKey b.title qs ∧ b.score ≤ a.score)))
                 (((itemsScoreView s).map (fun t => t.2)).filter
                   (fun i => E.similarEnough i.title qs))) 12 (page_number.getD 0)
             | none =>
               pageSlice (sortBy (fun a b => decide (b.score ≤ a.score))
                 ((itemsScoreView s).map (fun t => t.2))) 12 (page_number.getD 0),
           current_page := page_number.getD 0,
           number_of_pages := ((divCeil (itemsMatchCount E s q) 12 : Nat) : Int),
           query := q }
  else none

/-- `get_users` of `database.rs`: same paging scheme as `get_items` over the
`users` table; ordered by similarity when searching, else table order. -/
def get_users (E : Externals) (s : DBState) (page_number : Option Int)
    (q : Option String) : Option (Page User) :=
  if 0 ≤ page_number.getD 0 ∧
      page_number.getD 0 < ((divCeil (usersMatchCount E s q) 12 : Nat) : Int) then
    some { target := "/users",
           items :=
             (pageSlice
               (match q with
                | some qs =>
                  sortBy (fun a b => decide (E.simKey b.username qs ≤ E.simKey a.username qs))
                    (s.users.filter (fun u => E.similarEnough u.username qs))
                | none => s.users) 12 (page_number.getD 0)).map UserRow.toUser,
           current_page := page_number.getD 0,
           number_of_pages := ((divCeil (usersMatchCount E s q) 12 : Nat) : Int),
           query := q }
  else none

/-- `login_user` of `database.rs`: `EmptyFields` on blank input; fetch the
user's row (`RowNotFound` becomes `IncorrectCredentials`); verify the password
against the stored hash (verification failure also `IncorrectCredentials`).
Stored hashes are assumed parseable (a parse failure is an infra
`InternalError` outside this model). -/
def login_user (E : Externals) (s : DBState) (username password : String) :
    Except DatabaseError User :=
  if (strTrim username) = "" ∨ (strTrim password) = "" then .error .EmptyFields
  else
    match s.users.find? (fun u => u.username == username) with
    | none => .error .IncorrectCredentials
    | some row =>
      if E.verifyPW password row.password_hash then
        .ok { username := username, is_admin := row.is_admin,
              avatar_hue := row.avatar_hue, has_avatar := row.has_avatar }
      else .error .IncorrectCredentials

/-- `register_user` of `database.rs`: blank check, `^\w+$` check, confirmation
match, strength threshold 80, then `INSERT INTO users` whose unique-constraint
conflict becomes `DuplicateUser`; on success an implicit `login_user`.
Columns not named in the insert take their schema defaults. -/
def register_user (E : Externals) (s : DBState)
    (username password1 password2 : String) :
    Except DatabaseError (DBState × User) :=
  if (strTrim username) = "" ∨ (strTrim password1) = "" ∨ (strTrim password2) = "" then
    .error .EmptyFields
  else if ¬ wordMatch username then .error .IllegalUsername
  else if password1 ≠ password2 then .error .PasswordsDiffer
  else if E.score password1 < 80 then .error .WeakPassword
  else if s.users.any (fun u => u.username == username) then .error .DuplicateUser
  else
    let newRow : UserRow :=
      { id := s.nextUserId, username := username,
        password_hash := E.hashPW password1, is_admin := false,
        avatar_hue := E.defaultHue, has_avatar := false }
    let s1 : DBState :=
      { s with users := s.users ++ [newRow], nextUserId := s.nextUserId + 1 }
    match login_user E s1 username password1 with
    | .ok u => .ok (s1, u)
    | .error e => .error e

/-- `rate_item` of `database.rs`: clamp the rating with `.max(1).min(10)`,
attempt `INSERT INTO reviews` (resolving item and user ids by subquery; a
missing id makes the insert violate a non-null constraint, surfaced as
`InternalError`); the store's unique-constraint conflict on `(item_id,
user_id)` — modelled sequentially as the key already being present — triggers
the fallback `UPDATE` that sets the clamped rating and `date=now()`. -/
def rate_item (s : DBState) (username item_locator : String) (rating : Int) :
    Except DatabaseError DBState :=
  let rating := min (max rating 1) 10
  match findItemId s item_locator, findUserId s username with
  | some iid, some uid =>
    if s.reviews.any (fun r => r.item_id == iid && r.user_id == uid) then
      .ok { s with reviews := s.reviews.map (fun r =>
        if r.item_id == iid && r.user_id == uid then
          { r with rating := rating, date := s.now } else r) }
    else
      .ok { s with reviews :=
        s.reviews ++ [{ item_id := iid, user_id := uid, rating := rating, date := s.now }] }
  | _, _ => .error .InternalError

/-- `remove_review` of `database.rs`: `DELETE FROM reviews` matching both id
subqueries; SQL null semantics make a missing item or user match nothing. -/
def remove_review (s : DBState) (locator username : String) :
    Except DatabaseError DBState :=
  .ok { s with reviews := s.reviews.filter (fun r =>
    !(some r.item_id == findItemId s locator && some r.user_id == findUserId s username)) }

/-- `get_item_rating` of `database.rs`: the caller's own rating, if any. -/
def get_item_rating (s : DBState) (locator username : String) : Option Int :=
  (s.reviews.find? (fun r =>
    some r.item_id == findItemId s locator && some r.user_id == findUserId s username)).map
    (fun r => r.rating)

/-- The row count of an item's reviews (`COUNT(*)` with the locator subquery;
a missing item counts 0 via SQL null semantics). -/
def itemRatingsCount (s : DBState) (locator : String) : Nat :=
  match findItemId s locator with
  | none => 0
  | some iid => (s.reviews.filter (fun r => r.item_id == iid)).length

/-- The row count of a user's reviews. -/
def userRatingsCount (s : DBState) (username : String) : Nat :=
  match findUserId s username with
  | none => 0
  | some uid => (s.reviews.filter (fun r => r.user_id == uid)).length

/-- `get_item_ratings` of `database.rs`: page size 3 over the reviews of one
item joined with `users`, ordered by date descending. -/
def get_item_ratings (s : DBState) (page_number : Option Int) (locator : String) :
    Option (Page RatingItem) :=
  if 0 ≤ page_number.getD 0 ∧
      page_number.getD 0 < ((divCeil (itemRatingsCount s locator) 3 : Nat) : Int) then
    some { target := "/items/" ++ locator,
           items :=
             pageSlice (sortBy (fun a b => decide (b.date ≤ a.date))
               (match findItemId s locator with
                | none => []
                | some iid =>
                  (s.reviews.filter (fun r => r.item_id == iid)).filterMap (fun r =>
                    (s.users.find? (fun u => u.id == r.user_id)).map (fun u =>
                      ({ user := u.toUser, rating := r.rating, date := r.date } : RatingItem)))))
               3 (page_number.getD 0),
           current_page := page_number.getD 0,
           number_of_pages := ((divCeil (itemRatingsCount s locator) 3 : Nat) : Int),
           query := none }
  else none

/-- `get_user_ratings` of `database.rs`: page size 3 over the reviews of one
user joined with the `items_score` view, ordered by date descending. -/
def get_user_ratings (s : DBState) (page_number : Option Int) (username : String) :
    Option (Page RatingUser) :=
  if 0 ≤ page_number.getD 0 ∧
      page_number.getD 0 < ((divCeil (userRatingsCount s username) 3 : Nat) : Int) then
    some { target := "/users/" ++ username,
           items :=
             pageSlice (sortBy (fun a b => decide (b.date ≤ a.date))
               (match findUserId s username with
                | none => []
                | some uid =>
                  (s.reviews.filter (fun r => r.user_id == uid)).filterMap (fun r =>
                    ((itemsScoreView s).find? (fun t => t.1 == r.item_id)).map (fun t =>
                      ({ item := t.2, rating := r.rating, date := r.date } : RatingUser)))))
               3 (page_number.getD 0),
           current_page := page_number.getD 0,
           number_of_pages := ((divCeil (userRatingsCount s username) 3 : Nat) : Int),
           query := none }
  else none

/-- `add_item` of `database.rs`. -/
def add_item (s : DBState) (locator title description : String)
    (freshId : Nat) : Except DatabaseError DBState :=
  if (strTrim locator) = "" ∨ (strTrim title) = "" ∨ (strTrim description) = "" then
    .error .EmptyFields
  else if ¬ wordMatch locator then .error .IllegalLocator
  else if s.items.any (fun i => i.locator == locator) then .error .DuplicateItem
  else
    .ok { s with items := s.items ++
      [{ id := freshId, locator := locator, title := title, description := description }] }

/-- `remove_item` of `database.rs`: `DELETE FROM items WHERE locator=$1`; the
foreign key cascades to that item's reviews (spec §3).  Deleting a missing
locator deletes nothing and still succeeds. -/
def remove_item (s : DBState) (locator : String) : Except DatabaseError DBState :=
  .ok { s with
    items := s.items.filter (fun i => !(i.locator == locator)),
    reviews := s.reviews.filter (fun r =>
      !((s.items.filter (fun i => i.locator == locator)).any (fun i => i.id == r.item_id))) }

/-- `remove_user` of `database.rs`: `DELETE FROM users WHERE username=$1`,
cascading to the user's reviews. -/
def remove_user (s : DBState) (username : String) : Except DatabaseError DBState :=
  .ok { s with
    users := s.users.filter (fun u => !(u.username == username)),
    reviews := s.reviews.filter (fun r =>
      !((s.users.filter (fun u => u.username == username)).any (fun u => u.id == r.user_id))) }

/-- `edit_item` of `database.rs`: `EmptyFields` if any provided field is blank
after trimming, `IllegalLocator` if a provided locator fails `^\w+$`, then
`UPDATE ... SET c = COALESCE(new, c) WHERE locator=$4`.  The update touches at
most the row matching the old locator (none matching is a successful no-op);
its unique-constraint conflict — the new locator colliding with a different
existing row — becomes `DuplicateItem`. -/
def edit_item (s : DBState) (locator : String)
    (new_locator new_title new_description : Option String) :
    Except DatabaseError DBState :=
  if new_locator.any (fun l => (strTrim l) == "") ∨ new_title.any (fun t => (strTrim t) == "") ∨
      new_description.any (fun d => (strTrim d) == "") then
    .error .EmptyFields
  else if new_locator.any (fun l => !wordMatch l) then .error .IllegalLocator
  else
    match s.items.find? (fun i => i.locator == locator) with
    | none => .ok s
    | some row =>
      if new_locator.getD row.locator ≠ row.locator ∧
          s.items.any (fun i => i.locator == new_locator.getD row.locator) then
        .error .DuplicateItem
      else
        .ok { s with items := s.items.map (fun i =>
          if i.locator == locator then
            { i with locator := new_locator.getD row.locator,
                     title := new_title.getD i.title,
                     description := new_description.getD i.description }
          else i) }

/-- The password-hash computation at the top of `edit_user`: a change is
attempted only when both fields are provided and at least one is non-blank
after trimming; it is then validated (match, then strength) and hashed;
otherwise the result is `none` (keep the stored hash). -/
def editUserPasswordHash (E : Externals) (new_password1 new_password2 : Option String) :
    Except DatabaseError (Option String) :=
  match new_password1, new_password2 with
  | some password1, some password2 =>
    if ¬ (strTrim password1) = "" ∨ ¬ (strTrim password2) = "" then
      if password1 ≠ password2 then .error .PasswordsDiffer
      else if E.score password1 < 80 then .error .WeakPassword
      else .ok (some (E.hashPW password1))
    else .ok none
  | _, _ => .ok none

/-- `edit_user` of `database.rs`: `EmptyFields` only for a blank provided new
username, `IllegalUsername` for a provided username failing `^\w+$`, the
password-hash computation, then `UPDATE users SET c = COALESCE(new, c) WHERE
username=$4`.  The update's unique-constraint conflict — renaming onto a
different existing username — is mapped to `DuplicateItem` in the source. -/
def edit_user (E : Externals) (s : DBState) (username : String)
    (new_username : Option String) (has_avatar : Option Bool)
    (new_password1 new_password2 : Option String) :
    Except DatabaseError DBState :=
  if new_username.any (fun u => (strTrim u) == "") then .error .EmptyFields
  else if new_username.any (fun u => !wordMatch u) then .error .IllegalUsername
  else
    match editUserPasswordHash E new_password1 new_password2 with
    | .error e => .error e
    | .ok password_hash =>
      match s.users.find? (fun u => u.username == username) with
      | none => .ok s
      | some row =>
        if new_username.getD row.username ≠ row.username ∧
            s.users.any (fun u => u.username == new_username.getD row.username) then
          .error .DuplicateItem
        else
          .ok { s with users := s.users.map (fun u =>
            if u.username == username then
              { u with username := new_username.getD row.username,
                       has_avatar := has_avatar.getD u.has_avatar,
                       password_hash := password_hash.getD u.password_hash }
            else u) }

/-- The store's schema constraints on a state: user ids and usernames unique,
item ids and locators unique, and the `reviews` unique constraint on
`(item_id, user_id)`. -/
def wf (s : DBState) : Bool :=
  pairwiseBool (fun a b => !(a.id == b.id) && !(a.username == b.username)) s.users &&
  pairwiseBool (fun a b => !(a.id == b.id) && !(a.locator == b.locator)) s.items &&
  pairwiseBool (fun a b => !(a.item_id == b.item_id && a.user_id == b.user_id)) s.reviews

/-! ### Concrete test fixtures used by witnesses -/

/-- A concrete instantiation of the external collaborators: every pair of
strings is trigram-similar with key 0, passwords of length at least 8 score
100 and shorter ones 0, hashing prefixes a tag, verification inverts it. -/
def E0 : Externals :=
  { similarEnough := fun _ _ => true,
    simKey := fun _ _ => 0,
    score := fun p => if p.length < 8 then 0 else 100,
    hashPW := fun p => "h:" ++ p,
    verifyPW := fun p h => h == "h:" ++ p,
    defaultHue := 0 }

/-- Fixture user `bob`. -/
def bobRow : UserRow :=
  { id := 1, username := "bob", password_hash := "h:hunter2hunter2",
    is_admin := false, avatar_hue := 0, has_avatar := false }

/-- Fixture user `alice`. -/
def aliceRow : UserRow :=
  { id := 2, username := "alice", password_hash := "h:correcthorse",
    is_admin := false, avatar_hue := 0, has_avatar := false }

/-- Fixture item `m1`. -/
def itemRow1 : ItemRow :=
  { id := 1, locator := "m1", title := "Title", description := "Desc" }

/-- A small state: one user, one item, no reviews. -/
def s0 : DBState :=
  { users := [bobRow], items := [itemRow1], reviews := [], nextUserId := 3, now := 100 }

/-- `s0` with one review by `bob` on `m1`. -/
def s1 : DBState :=
  { s0 with reviews := [{ item_id := 1, user_id := 1, rating := 7, date := 50 }] }

/-- A state with two users and no items. -/
def sAB : DBState :=
  { users := [aliceRow, bobRow], items := [], reviews := [], nextUserId := 3, now := 100 }

/-- The `items_score` view row of item `m1` in state `s1`. -/
def item1 : Item :=
  { locator := "m1", title := "Title", description := "Desc",
    score := 700, review_count := 1, rank := 1, popularity := 1 }

/-- The item page returned by `get_items E0 s1 none none`. -/
def pgI0 : Page Item :=
  { target := "/items", items := [item1],
    current_page := 0, number_of_pages := 1, query := none }

/-- The user page returned by `get_users E0 s1 none none`. -/
def pgU0 : Page User :=
  { target := "/users", items := [bobRow.toUser],
    current_page := 0, number_of_pages := 1, query := none }

/-- The rating page returned by `get_item_ratings s1 none "m1"`. -/
def pgRI0 : Page RatingItem :=
  { target := "/items/m1", items := [{ user := bobRow.toUser, rating := 7, date := 50 }],
    current_page := 0, number_of_pages := 1, query := none }

/-- The rating page returned by `get_user_ratings s1 none "bob"`. -/
def pgRU0 : Page RatingUser :=
  { target := "/users/bob", items := [{ item := item1, rating := 7, date := 50 }],
    current_page := 0, number_of_pages := 1, query := none }

/-! ### Helper lemmas -/

/-- `pairwiseBool` agrees with `List.Pairwise`. -/
theorem pairwiseBool_eq_true {α : Type} (p : α → α → Bool) (l : List α) :
    pairwiseBool p l = true ↔ l.Pairwise (fun a b => p a b = true) := by
  induction l with
  | nil => simp [pairwiseBool]
  | cons x xs ih => simp [pairwiseBool, List.all_eq_true, ih, List.pairwise_cons]

/-- Mapping a function that fixes every member is the identity. -/
theorem map_eq_self_of_eq {α : Type} (f : α → α) (l : List α)
    (h : ∀ a ∈ l, f a = a) : l.map f = l := by
  induction l with
  | nil => rfl
  | cons x xs ih => simp [h x (by simp), ih (fun a ha => h a (by simp [ha]))]

/-- Two maps agree when the functions agree on every member. -/
theorem map_congr_mem {α β : Type} (f g : α → β) (l : List α)
    (h : ∀ a ∈ l, f a = g a) : l.map f = l.map g := by
  induction l with
  | nil => rfl
  | cons x xs ih => simp [h x (by simp), ih (fun a ha => h a (by simp [ha]))]

/-- Unfolding `edit_user` when the username guards pass and the password
computation fails. -/
theorem edit_user_eq_of_hash_error (E : Externals) (s : DBState) (username : String)
    (nu : Option String) (ha : Option Bool) (p1 p2 : Option String) (e : DatabaseError)
    (h1 : ¬ nu.any (fun u => (strTrim u) == "") = true)
    (h2 : ¬ nu.any (fun u => !wordMatch u) = true)
    (hph : editUserPasswordHash E p1 p2 = .error e) :
    edit_user E s username nu ha p1 p2 = .error e := by
  unfold edit_user
  rw [if_neg h1, if_neg h2, hph]

/-- Unfolding `edit_user` when the guards pass, the password computation
succeeds and the target row is absent: zero rows are updated. -/
theorem edit_user_eq_of_find_none (E : Externals) (s : DBState) (username : String)
    (nu : Option String) (ha : Option Bool) (p1 p2 : Option String) (ph : Option String)
    (h1 : ¬ nu.any (fun u => (strTrim u) == "") = true)
    (h2 : ¬ nu.any (fun u => !wordMatch u) = true)
    (hph : editUserPasswordHash E p1 p2 = .ok ph)
    (hrow : s.users.find? (fun u => u.username == username) = none) :
    edit_user E s username nu ha p1 p2 = .ok s := by
  unfold edit_user
  rw [if_neg h1, if_neg h2, hph, hrow]

/-- Unfolding `edit_user` when the guards pass, the password computation
succeeds and the target row is found. -/
theorem edit_user_eq_of_find_some (E : Externals) (s : DBState) (username : String)
    (nu : Option String) (ha : Option Bool) (p1 p2 : Option String) (ph : Option String)
    (row : UserRow)
    (h1 : ¬ nu.any (fun u => (strTrim u) == "") = true)
    (h2 : ¬ nu.any (fun u => !wordMatch u) = true)
    (hph : editUserPasswordHash E p1 p2 = .ok ph)
    (hrow : s.users.find? (fun u => u.username == username) = some row) :
    edit_user E s username nu ha p1 p2 =
      if nu.getD row.username ≠ row.username ∧
          s.users.any (fun u => u.username == nu.getD row.username) = true then
        .error .DuplicateItem
      else
        .ok { s with users := s.users.map (fun u =>
          if u.username == username then
            { u with username := nu.getD row.username,
                     has_avatar := ha.getD u.has_avatar,
                     password_hash := ph.getD u.password_hash }
          else u) } := by
  unfold edit_user
  rw [if_neg h1, if_neg h2, hph, hrow]

/-- Unfolding `edit_item` when the field guards pass and the target row is
absent: zero rows are updated. -/
theorem edit_item_eq_of_find_none (s : DBState) (locator : String)
    (nl nt nd : Option String)
    (h1 : ¬ (nl.any (fun l => (strTrim l) == "") = true ∨
      nt.any (fun t => (strTrim t) == "") = true ∨
      nd.any (fun d => (strTrim d) == "") = true))
    (h2 : ¬ nl.any (fun l => !wordMatch l) = true)
    (hrow : s.items.find? (fun i => i.locator == locator) = none) :
    edit_item s locator nl nt nd = .ok s := by
  unfold edit_item
  rw [if_neg h1, if_neg h2, hrow]

/-- Unfolding `edit_item` when the field guards pass and the target row is
found. -/
theorem edit_item_eq_of_find_some (s : DBState) (locator : String)
    (nl nt nd : Option String) (row : ItemRow)
    (h1 : ¬ (nl.any (fun l => (strTrim l) == "") = true ∨
      nt.any (fun t => (strTrim t) == "") = true ∨
      nd.any (fun d => (strTrim d) == "") = true))
    (h2 : ¬ nl.any (fun l => !wordMatch l) = true)
    (hrow : s.items.find? (fun i => i.locator == locator) = some row) :
    edit_item s locator nl nt nd =
      if nl.getD row.locator ≠ row.locator ∧
          s.items.any (fun i => i.locator == nl.getD row.locator) = true then
        .error .DuplicateItem
      else
        .ok { s with items := s.items.map (fun i =>
          if i.locator == locator then
            { i with locator := nl.getD row.locator,
                     title := nt.getD i.title,
                     description := nd.getD i.description }
          else i) } := by
  unfold edit_item
  rw [if_neg h1, if_neg h2, hrow]

/-- Unfolding `rate_item` when both id subqueries find a row. -/
theorem rate_item_eq_of_ids (s : DBState) (username locator : String) (r : Int)
    (iid uid : Nat)
    (hi : findItemId s locator = some iid)
    (hu : findUserId s username = some uid) :
    rate_item s username locator r =
      (if s.reviews.any (fun v => v.item_id == iid && v.user_id == uid) then
        .ok { s with reviews := s.reviews.map (fun v =>
          if v.item_id == iid && v.user_id == uid then
            { v with rating := min (max r 1) 10, date := s.now } else v) }
      else
        .ok { s with reviews := s.reviews ++
          [{ item_id := iid, user_id := uid, rating := min (max r 1) 10, date := s.now }] }) := by
  unfold rate_item
  rw [hi, hu]

/-! ### C1: out-of-range pages -/

/-- C1: for every page index outside `[0, number_of_pages)` — including
negative indices, and including page 0 when zero rows match — `get_items` and
`get_users` return the "no page" result `none` (not an error, not a clamped
page), and for every index inside that range they return a `Page`. -/
theorem c1_list_out_of_range_page (E : Externals) (s : DBState) (p : Option Int)
    (q : Option String) :
    (¬ (0 ≤ p.getD 0 ∧ p.getD 0 < ((divCeil (itemsMatchCount E s q) 12 : Nat) : Int)) →
      get_items E s p q = none) ∧
    ((0 ≤ p.getD 0 ∧ p.getD 0 < ((divCeil (itemsMatchCount E s q) 12 : Nat) : Int)) →
      ∃ pg, get_items E s p q = some pg) ∧
    (¬ (0 ≤ p.getD 0 ∧ p.getD 0 < ((divCeil (usersMatchCount E s q) 12 : Nat) : Int)) →
      get_users E s p q = none) ∧
    ((0 ≤ p.getD 0 ∧ p.getD 0 < ((divCeil (usersMatchCount E s q) 12 : Nat) : Int)) →
      ∃ pg, get_users E s p q = some pg) := by
  refine ⟨fun h => ?_, fun h => ?_, fun h => ?_, fun h => ?_⟩
  · unfold get_items; exact if_neg h
  · unfold get_items; rw [if_pos h]; exact ⟨_, rfl⟩
  · unfold get_users; exact if_neg h
  · unfold get_users; rw [if_pos h]; exact ⟨_, rfl⟩

/-- Witness for C1 at concrete inputs: page 0 of zero items and page -1 of one
user are refused; page 0 of one item and of one user is served. -/
theorem c1_list_out_of_range_page_witness :
    get_items E0 sAB none none = none ∧
    (∃ pg, get_items E0 s0 none none = some pg) ∧
    get_users E0 s0 (some (-1)) none = none ∧
    (∃ pg, get_users E0 s0 none none = some pg) :=
  ⟨(c1_list_out_of_range_page E0 sAB none none).1 (by decide),
   (c1_list_out_of_range_page E0 s0 none none).2.1 (by decide),
   (c1_list_out_of_range_page E0 s0 (some (-1)) none).2.2.1 (by decide),
   (c1_list_out_of_range_page E0 s0 none none).2.2.2 (by decide)⟩

/-! ### C4: login yields no user-existence oracle -/

/-- C4: with non-blank inputs, `login_user` on a nonexistent username and on
an existing username whose password fails verification both return the very
same `IncorrectCredentials` error value, so the two cases are observationally
indistinguishable. -/
theorem c4_login_no_existence_oracle (E : Externals) (s : DBState)
    (username password : String)
    (hu : ¬ strTrim username = "") (hp : ¬ strTrim password = "") :
    (s.users.find? (fun u => u.username == username) = none →
      login_user E s username password = .error .IncorrectCredentials) ∧
    (∀ row, s.users.find? (fun u => u.username == username) = some row →
      E.verifyPW password row.password_hash = false →
      login_user E s username password = .error .IncorrectCredentials) := by
  constructor
  · intro h
    unfold login_user
    rw [if_neg (by tauto), h]
  · intro row h hv
    unfold login_user
    rw [if_neg (by tauto), h]
    simp [hv]

/-- Witness for C4: `login("nouser","whatever")` and `login("bob","wrongpass")`
against `s0` produce the identical error kind. -/
theorem c4_login_no_existence_oracle_witness :
    login_user E0 s0 "nouser" "whatever" = .error .IncorrectCredentials ∧
    login_user E0 s0 "bob" "wrongpass" = .error .IncorrectCredentials :=
  ⟨(c4_login_no_existence_oracle E0 s0 "nouser" "whatever" (by decide) (by decide)).1
     (by decide),
   (c4_login_no_existence_oracle E0 s0 "bob" "wrongpass" (by decide) (by decide)).2
     bobRow (by decide) (by decide)⟩

/-! ### C3: registration check order -/

/-- C3: `register_user` checks its inputs in order — `EmptyFields` when any
input is blank after trimming; then `IllegalUsername` when the username fails
the word regex, before any password check (in particular for username "a b");
then `PasswordsDiffer` on a confirmation mismatch; then `WeakPassword` when
the strength score is below 80; then `DuplicateUser` on the store's
uniqueness conflict. -/
theorem c3_register_check_order (E : Externals) (s : DBState) (u p1 p2 : String) :
    ((strTrim u = "" ∨ strTrim p1 = "" ∨ strTrim p2 = "") →
      register_user E s u p1 p2 = .error .EmptyFields) ∧
    (¬ (strTrim u = "" ∨ strTrim p1 = "" ∨ strTrim p2 = "") → ¬ wordMatch u →
      register_user E s u p1 p2 = .error .IllegalUsername) ∧
    (¬ (strTrim u = "" ∨ strTrim p1 = "" ∨ strTrim p2 = "") → wordMatch u →
      p1 ≠ p2 → register_user E s u p1 p2 = .error .PasswordsDiffer) ∧
    (¬ (strTrim u = "" ∨ strTrim p1 = "" ∨ strTrim p2 = "") → wordMatch u →
      p1 = p2 → E.score p1 < 80 →
      register_user E s u p1 p2 = .error .WeakPassword) ∧
    (¬ (strTrim u = "" ∨ strTrim p1 = "" ∨ strTrim p2 = "") → wordMatch u →
      p1 = p2 → ¬ E.score p1 < 80 →
      s.users.any (fun x => x.username == u) = true →
      register_user E s u p1 p2 = .error .DuplicateUser) := by
  refine ⟨fun hb => ?_, fun hb hw => ?_, fun hb hw hne => ?_,
    fun hb hw hpe hsc => ?_, fun hb hw hpe hsc hdup => ?_⟩
  · unfold register_user; exact if_pos hb
  · unfold register_user; rw [if_neg hb]; exact if_pos hw
  · unfold register_user; rw [if_neg hb, if_neg (not_not_intro hw)]; exact if_pos hne
  · unfold register_user
    rw [if_neg hb, if_neg (not_not_intro hw), if_neg (not_not_intro hpe)]
    exact if_pos hsc
  · unfold register_user
    rw [if_neg hb, if_neg (not_not_intro hw), if_neg (not_not_intro hpe), if_neg hsc]
    exact if_pos hdup

/-- Witness for C3: each error kind fires at a concrete input; in particular
`register("a b","x","x")` fails with `IllegalUsername` even though the
passwords match and would fail the later strength check. -/
theorem c3_register_check_order_witness :
    register_user E0 s0 "a b" "x" "x" = .error .IllegalUsername ∧
    register_user E0 s0 "" "x" "x" = .error .EmptyFields ∧
    register_user E0 s0 "carol" "x" "y" = .error .PasswordsDiffer ∧
    register_user E0 s0 "carol" "x" "x" = .error .WeakPassword ∧
    register_user E0 s0 "bob" "longpassword" "longpassword" = .error .DuplicateUser :=
  ⟨(c3_register_check_order E0 s0 "a b" "x" "x").2.1 (by decide) (by decide),
   (c3_register_check_order E0 s0 "" "x" "x").1 (by decide),
   (c3_register_check_order E0 s0 "carol" "x" "y").2.2.1 (by decide) (by decide)
     (by decide),
   (c3_register_check_order E0 s0 "carol" "x" "x").2.2.2.1 (by decide) (by decide) rfl
     (by decide),
   (c3_register_check_order E0 s0 "bob" "longpassword" "longpassword").2.2.2.2
     (by decide) (by decide) rfl (by decide) (by decide)⟩

/-! ### C8: unrate is an idempotent success -/

/-- C8: `remove_review` always succeeds; it deletes exactly the review rows of
the given (item, user) pair — afterwards no such row remains and every other
review survives — and when no such review exists the state is returned
unchanged rather than an error. -/
theorem c8_remove_review_noop_ok (s : DBState) (locator username : String) :
    ∃ s2, remove_review s locator username = .ok s2 ∧
      (∀ r ∈ s2.reviews,
        ¬(some r.item_id = findItemId s locator ∧ some r.user_id = findUserId s username)) ∧
      (∀ r ∈ s.reviews,
        ¬(some r.item_id = findItemId s locator ∧ some r.user_id = findUserId s username) →
          r ∈ s2.reviews) ∧
      s2.users = s.users ∧ s2.items = s.items ∧
      ((∀ r ∈ s.reviews,
        ¬(some r.item_id = findItemId s locator ∧ some r.user_id = findUserId s username)) →
          s2 = s) := by
  refine ⟨_, rfl, ?_, ?_, rfl, rfl, fun hall => ?_⟩
  · intro r hr
    have hp := (List.mem_filter.mp hr).2
    simp at hp
    tauto
  · intro r hr hno
    refine List.mem_filter.mpr ⟨hr, ?_⟩
    simp
    tauto
  · have hf : s.reviews.filter (fun r =>
        !(some r.item_id == findItemId s locator &&
          some r.user_id == findUserId s username)) = s.reviews :=
      List.filter_eq_self.mpr (fun r hr => by
        have hno := hall r hr
        simp
        tauto)
    show { s with reviews := _ } = s
    rw [hf]

/-- Witness for C8: unrating `m1` as `bob` with no prior rating returns the
state unchanged. -/
theorem c8_remove_review_noop_ok_witness : remove_review s0 "m1" "bob" = .ok s0 := by
  obtain ⟨s2, h1, -, -, -, -, h6⟩ := c8_remove_review_noop_ok s0 "m1" "bob"
  rw [h1, h6 (by intro r hr; simp [s0] at hr)]

/-! ### C10: deleting a missing item or user succeeds -/

/-- C10: `remove_item` and `remove_user` return `Ok` even when no row matches;
when the locator or username is absent the state is returned unchanged — a
silent no-op, never a "not found" error. -/
theorem c10_remove_missing_is_noop (s : DBState) (locator username : String) :
    (∃ s2, remove_item s locator = .ok s2) ∧
    ((∀ i ∈ s.items, i.locator ≠ locator) → remove_item s locator = .ok s) ∧
    (∃ s2, remove_user s username = .ok s2) ∧
    ((∀ u ∈ s.users, u.username ≠ username) → remove_user s username = .ok s) := by
  refine ⟨⟨_, rfl⟩, fun h => ?_, ⟨_, rfl⟩, fun h => ?_⟩
  · have h1 : s.items.filter (fun i => !(i.locator == locator)) = s.items :=
      List.filter_eq_self.mpr (fun i hi => by simpa using h i hi)
    have h0 : s.items.filter (fun i => i.locator == locator) = [] :=
      List.filter_eq_nil_iff.mpr (fun i hi => by simpa using h i hi)
    unfold remove_item
    rw [h0, h1]
    simp
  · have h1 : s.users.filter (fun u => !(u.username == username)) = s.users :=
      List.filter_eq_self.mpr (fun u hu => by simpa using h u hu)
    have h0 : s.users.filter (fun u => u.username == username) = [] :=
      List.filter_eq_nil_iff.mpr (fun u hu => by simpa using h u hu)
    unfold remove_user
    rw [h0, h1]
    simp

/-- Witness for C10: removing an absent locator and an absent username from
`s0` both succeed with the state unchanged. -/
theorem c10_remove_missing_is_noop_witness :
    remove_item s0 "zzz" = .ok s0 ∧ remove_user s0 "zzz" = .ok s0 :=
  ⟨(c10_remove_missing_is_noop s0 "zzz" "zzz").2.1 (by decide),
   (c10_remove_missing_is_noop s0 "zzz" "zzz").2.2.2 (by decide)⟩

/-! ### C9: COALESCE-style partial merge -/

/-- C9 counterexample: in `edit_user`, providing both password fields blank
(after trimming) does not yield `EmptyFields` — the record is returned
unchanged with success, refuting the claim that every provided-but-blank field
yields `EmptyFields`. -/
theorem c9_coalesce_merge_counterexample :
    edit_user E0 s0 "bob" none none (some " ") (some " ") = .ok s0 ∧
    edit_user E0 s0 "bob" none none (some " ") (some " ") ≠ .error .EmptyFields :=
  ⟨by decide, by decide⟩

/-- C9 (amended): `edit_user` and `edit_item` merge COALESCE-style — every
field left `none` keeps its stored value and provided fields are updated: a
provided title, description or (conflict-free) locator in `edit_item`, and a
provided (conflict-free) username or avatar flag in `edit_user`, are written
to the matching row while all other rows and fields are unchanged.  In
`edit_item` every provided field that is blank after trimming yields
`EmptyFields`; in `edit_user` a blank provided username yields `EmptyFields`,
but provided-and-blank password fields are not an error: when both are blank
the password is silently left untouched. -/
theorem c9_coalesce_merge (E : Externals) (s : DBState) (locator username : String)
    (nl nt nd : Option String) (ha : Option Bool) :
    ((nl.any (fun l => (strTrim l) == "") = true ∨
        nt.any (fun t => (strTrim t) == "") = true ∨
        nd.any (fun d => (strTrim d) == "") = true) →
      edit_item s locator nl nt nd = .error .EmptyFields) ∧
    (edit_item s locator none none none = .ok s) ∧
    (∀ t, ¬ strTrim t = "" →
      edit_item s locator none (some t) none =
        .ok { s with items := s.items.map (fun i =>
          if i.locator == locator then { i with title := t } else i) }) ∧
    (∀ d, ¬ strTrim d = "" →
      edit_item s locator none none (some d) =
        .ok { s with items := s.items.map (fun i =>
          if i.locator == locator then { i with description := d } else i) }) ∧
    (∀ l2, ¬ strTrim l2 = "" → wordMatch l2 = true → (∀ i ∈ s.items, i.locator ≠ l2) →
      edit_item s locator (some l2) none none =
        .ok { s with items := s.items.map (fun i =>
          if i.locator == locator then { i with locator := l2 } else i) }) ∧
    (∀ v, strTrim v = "" →
      edit_user E s username (some v) ha nl nt = .error .EmptyFields) ∧
    (∀ q1 q2, strTrim q1 = "" → strTrim q2 = "" →
      ∃ s2, edit_user E s username none ha (some q1) (some q2) = .ok s2 ∧
        s2.users.map (fun u => u.password_hash) = s.users.map (fun u => u.password_hash)) ∧
    (edit_user E s username none none none none = .ok s) ∧
    (∀ u2, ¬ strTrim u2 = "" → wordMatch u2 = true → (∀ x ∈ s.users, x.username ≠ u2) →
      edit_user E s username (some u2) ha none none =
        .ok { s with users := s.users.map (fun x =>
          if x.username == username then
            { x with username := u2, has_avatar := ha.getD x.has_avatar } else x) }) ∧
    (∀ b : Bool, edit_user E s username none (some b) none none =
      .ok { s with users := s.users.map (fun x =>
        if x.username == username then { x with has_avatar := b } else x) }) := by
  refine ⟨fun hb => ?_, ?_, fun t ht => ?_, fun d hd => ?_, fun l2 hl2 hw2 hno => ?_,
    fun v hv => ?_, fun q1 q2 h1 h2 => ?_, ?_, fun u2 hu2 hwu hno => ?_, fun b => ?_⟩
  · unfold edit_item
    exact if_pos hb
  · cases hrow : s.items.find? (fun i => i.locator == locator) with
    | none => exact edit_item_eq_of_find_none s locator none none none (by simp) (by simp) hrow
    | some row =>
      have hloc : row.locator = locator := by simpa using List.find?_some hrow
      rw [edit_item_eq_of_find_some s locator none none none row (by simp) (by simp) hrow,
        if_neg (by simp)]
      refine congrArg (fun l => (Except.ok { s with items := l } : Except DatabaseError DBState))
        (map_eq_self_of_eq _ _ ?_)
      intro i hi
      by_cases hm : (i.locator == locator) = true
      · have hieq : i.locator = locator := by simpa using hm
        rw [if_pos hm]
        simp only [Option.getD_none]
        rw [hloc, ← hieq]
      · rw [if_neg hm]
  · cases hrow : s.items.find? (fun i => i.locator == locator) with
    | none =>
      rw [edit_item_eq_of_find_none s locator none (some t) none (by simp [ht]) (by simp) hrow]
      have hnone := List.find?_eq_none.mp hrow
      have hmap : s.items.map (fun i =>
          if i.locator == locator then { i with title := t } else i) = s.items :=
        map_eq_self_of_eq _ _ (fun i hi => if_neg (by simpa using hnone i hi))
      rw [hmap]
    | some row =>
      have hloc : row.locator = locator := by simpa using List.find?_some hrow
      rw [edit_item_eq_of_find_some s locator none (some t) none row (by simp [ht]) (by simp)
        hrow, if_neg (by simp)]
      refine congrArg (fun l => (Except.ok { s with items := l } : Except DatabaseError DBState))
        (map_congr_mem _ _ _ ?_)
      intro i hi
      by_cases hm : (i.locator == locator) = true
      · have hieq : i.locator = locator := by simpa using hm
        rw [if_pos hm, if_pos hm]
        simp only [Option.getD_none, Option.getD_some]
        rw [hloc, ← hieq]
      · rw [if_neg hm, if_neg hm]
  · cases hrow : s.items.find? (fun i => i.locator == locator) with
    | none =>
      rw [edit_item_eq_of_find_none s locator none none (some d) (by simp [hd]) (by simp) hrow]
      have hnone := List.find?_eq_none.mp hrow
      have hmap : s.items.map (fun i =>
          if i.locator == locator then { i with description := d } else i) = s.items :=
        map_eq_self_of_eq _ _ (fun i hi => if_neg (by simpa using hnone i hi))
      rw [hmap]
    | some row =>
      have hloc : row.locator = locator := by simpa using List.find?_some hrow
      rw [edit_item_eq_of_find_some s locator none none (some d) row (by simp [hd]) (by simp)
        hrow, if_neg (by simp)]
      refine congrArg (fun l => (Except.ok { s with items := l } : Except DatabaseError DBState))
        (map_congr_mem _ _ _ ?_)
      intro i hi
      by_cases hm : (i.locator == locator) = true
      · have hieq : i.locator = locator := by simpa using hm
        rw [if_pos hm, if_pos hm]
        simp only [Option.getD_none, Option.getD_some]
        rw [hloc, ← hieq]
      · rw [if_neg hm, if_neg hm]
  · have hanyf : ¬ s.items.any (fun i => i.locator == l2) = true := by
      have h0 : s.items.any (fun i => i.locator == l2) = false :=
        List.any_eq_false.mpr (fun i hi => by simpa using hno i hi)
      simp [h0]
    cases hrow : s.items.find? (fun i => i.locator == locator) with
    | none =>
      rw [edit_item_eq_of_find_none s locator (some l2) none none (by simp [hl2])
        (by simp [hw2]) hrow]
      have hnone := List.find?_eq_none.mp hrow
      have hmap : s.items.map (fun i =>
          if i.locator == locator then { i with locator := l2 } else i) = s.items :=
        map_eq_self_of_eq _ _ (fun i hi => if_neg (by simpa using hnone i hi))
      rw [hmap]
    | some row =>
      rw [edit_item_eq_of_find_some s locator (some l2) none none row (by simp [hl2])
        (by simp [hw2]) hrow, if_neg (fun hc => hanyf hc.2)]
      refine congrArg (fun l => (Except.ok { s with items := l } : Except DatabaseError DBState))
        (map_congr_mem _ _ _ ?_)
      intro i hi
      by_cases hm : (i.locator == locator) = true
      · rw [if_pos hm, if_pos hm]
        simp only [Option.getD_none, Option.getD_some]
      · rw [if_neg hm, if_neg hm]
  · unfold edit_user
    exact if_pos (by simp [hv])
  · have hph : editUserPasswordHash E (some q1) (some q2) = .ok none := by
      show (if ¬ strTrim q1 = "" ∨ ¬ strTrim q2 = "" then
          if q1 ≠ q2 then (.error .PasswordsDiffer : Except DatabaseError (Option String))
          else if E.score q1 < 80 then .error .WeakPassword
          else .ok (some (E.hashPW q1))
        else .ok none) = .ok none
      rw [if_neg (by push_neg; exact ⟨h1, h2⟩)]
    cases hrow : s.users.find? (fun u => u.username == username) with
    | none =>
      exact ⟨s, edit_user_eq_of_find_none E s username none ha (some q1) (some q2) none
        (by simp) (by simp) hph hrow, rfl⟩
    | some row =>
      refine ⟨_, by
        rw [edit_user_eq_of_find_some E s username none ha (some q1) (some q2) none row
          (by simp) (by simp) hph hrow, if_neg (by simp)], ?_⟩
      rw [List.map_map]
      refine map_congr_mem _ _ _ (fun u hu => ?_)
      simp only [Function.comp_apply]
      by_cases hm : (u.username == username) = true
      · rw [if_pos hm]
        simp only [Option.getD_none]
      · rw [if_neg hm]
  · cases hrow : s.users.find? (fun u => u.username == username) with
    | none =>
      exact edit_user_eq_of_find_none E s username none none none none none
        (by simp) (by simp) rfl hrow
    | some row =>
      have hname : row.username = username := by simpa using List.find?_some hrow
      rw [edit_user_eq_of_find_some E s username none none none none none row
        (by simp) (by simp) rfl hrow, if_neg (by simp)]
      refine congrArg (fun l => (Except.ok { s with users := l } : Except DatabaseError DBState))
        (map_eq_self_of_eq _ _ ?_)
      intro u hu
      by_cases hm : (u.username == username) = true
      · have hueq : u.username = username := by simpa using hm
        rw [if_pos hm]
        simp only [Option.getD_none]
        rw [hname, ← hueq]
      · rw [if_neg hm]
  · have hanyf : ¬ s.users.any (fun x => x.username == u2) = true := by
      have h0 : s.users.any (fun x => x.username == u2) = false :=
        List.any_eq_false.mpr (fun x hx => by simpa using hno x hx)
      simp [h0]
    cases hrow : s.users.find? (fun u => u.username == username) with
    | none =>
      rw [edit_user_eq_of_find_none E s username (some u2) ha none none none
        (by simp [hu2]) (by simp [hwu]) rfl hrow]
      have hnone := List.find?_eq_none.mp hrow
      have hmap : s.users.map (fun x =>
          if x.username == username then
            { x with username := u2, has_avatar := ha.getD x.has_avatar } else x) = s.users :=
        map_eq_self_of_eq _ _ (fun x hx => if_neg (by simpa using hnone x hx))
      rw [hmap]
    | some row =>
      rw [edit_user_eq_of_find_some E s username (some u2) ha none none none row
        (by simp [hu2]) (by simp [hwu]) rfl hrow, if_neg (fun hc => hanyf hc.2)]
      refine congrArg (fun l => (Except.ok { s with users := l } : Except DatabaseError DBState))
        (map_congr_mem _ _ _ ?_)
      intro x hx
      by_cases hm : (x.username == username) = true
      · rw [if_pos hm, if_pos hm]
        simp only [Option.getD_none, Option.getD_some]
      · rw [if_neg hm, if_neg hm]
  · cases hrow : s.users.find? (fun u => u.username == username) with
    | none =>
      rw [edit_user_eq_of_find_none E s username none (some b) none none none
        (by simp) (by simp) rfl hrow]
      have hnone := List.find?_eq_none.mp hrow
      have hmap : s.users.map (fun x =>
          if x.username == username then { x with has_avatar := b } else x) = s.users :=
        map_eq_self_of_eq _ _ (fun x hx => if_neg (by simpa using hnone x hx))
      rw [hmap]
    | some row =>
      have hname : row.username = username := by simpa using List.find?_some hrow
      rw [edit_user_eq_of_find_some E s username none (some b) none none none row
        (by simp) (by simp) rfl hrow, if_neg (by simp)]
      refine congrArg (fun l => (Except.ok { s with users := l } : Except DatabaseError DBState))
        (map_congr_mem _ _ _ ?_)
      intro x hx
      by_cases hm : (x.username == username) = true
      · have hueq : x.username = username := by simpa using hm
        rw [if_pos hm, if_pos hm]
        simp only [Option.getD_none, Option.getD_some]
        rw [hname, ← hueq]
      · rw [if_neg hm, if_neg hm]

/-- Witness for C9 at concrete inputs: a blank provided title is
`EmptyFields`; an all-`none` edit and a both-blank-password edit change
nothing; a provided title, description, locator, username and avatar flag are
each applied to the matching row. -/
theorem c9_coalesce_merge_witness :
    edit_item s0 "m1" none (some " ") none = .error .EmptyFields ∧
    edit_item s0 "m1" none none none = .ok s0 ∧
    edit_item s0 "m1" none (some "T2") none =
      .ok { s0 with items := s0.items.map (fun i =>
        if i.locator == "m1" then { i with title := "T2" } else i) } ∧
    edit_item s0 "m1" none none (some "D2") =
      .ok { s0 with items := s0.items.map (fun i =>
        if i.locator == "m1" then { i with description := "D2" } else i) } ∧
    edit_item s0 "m1" (some "m2") none none =
      .ok { s0 with items := s0.items.map (fun i =>
        if i.locator == "m1" then { i with locator := "m2" } else i) } ∧
    edit_user E0 s0 "bob" (some " ") none none none = .error .EmptyFields ∧
    (∃ s2, edit_user E0 s0 "bob" none none (some "  ") (some "  ") = .ok s2 ∧
      s2.users.map (fun u => u.password_hash) = s0.users.map (fun u => u.password_hash)) ∧
    edit_user E0 s0 "bob" none none none none = .ok s0 ∧
    edit_user E0 s0 "bob" (some "bobby") none none none =
      .ok { s0 with users := s0.users.map (fun x =>
        if x.username == "bob" then
          { x with username := "bobby", has_avatar := x.has_avatar } else x) } ∧
    edit_user E0 s0 "bob" none (some true) none none =
      .ok { s0 with users := s0.users.map (fun x =>
        if x.username == "bob" then { x with has_avatar := true } else x) } :=
  ⟨(c9_coalesce_merge E0 s0 "m1" "bob" none (some " ") none none).1 (by decide),
   (c9_coalesce_merge E0 s0 "m1" "bob" none none none none).2.1,
   (c9_coalesce_merge E0 s0 "m1" "bob" none none none none).2.2.1 "T2" (by decide),
   (c9_coalesce_merge E0 s0 "m1" "bob" none none none none).2.2.2.1 "D2" (by decide),
   (c9_coalesce_merge E0 s0 "m1" "bob" none none none none).2.2.2.2.1 "m2"
     (by decide) (by decide) (by decide),
   (c9_coalesce_merge E0 s0 "m1" "bob" none none none none).2.2.2.2.2.1 " " (by decide),
   (c9_coalesce_merge E0 s0 "m1" "bob" none none none none).2.2.2.2.2.2.1 "  " "  "
     (by decide) (by decide),
   (c9_coalesce_merge E0 s0 "m1" "bob" none none none none).2.2.2.2.2.2.2.1,
   (c9_coalesce_merge E0 s0 "m1" "bob" none none none none).2.2.2.2.2.2.2.2.1 "bobby"
     (by decide) (by decide) (by decide),
   (c9_coalesce_merge E0 s0 "m1" "bob" none none none none).2.2.2.2.2.2.2.2.2 true⟩

/-! ### C5: when a password change is attempted in edit_user -/

/-- C5 counterexample: with both password fields provided but only the first
non-blank, `edit_user` does raise `PasswordsDiffer` — refuting the claim that
a change is only attempted (and such errors only raised) when both fields are
non-blank. -/
theorem c5_password_change_counterexample :
    edit_user E0 s0 "bob" none none (some "newpw") (some "") = .error .PasswordsDiffer := by
  decide

/-- C5 (amended): `edit_user` attempts a password change iff both password
fields are provided and at least one is non-blank after trimming; the change
is then validated like registration (match, then strength).  When either field
is absent, or both are provided blank, the stored password is left untouched
and neither `PasswordsDiffer` nor `WeakPassword` is raised. -/
theorem c5_password_change_policy (E : Externals) (s : DBState) (username : String)
    (nu : Option String) (ha : Option Bool) (p1 p2 : Option String) :
    ((p1 = none ∨ p2 = none ∨
        (∃ q1 q2, p1 = some q1 ∧ p2 = some q2 ∧ strTrim q1 = "" ∧ strTrim q2 = "")) →
      (edit_user E s username nu ha p1 p2 ≠ .error .PasswordsDiffer ∧
       edit_user E s username nu ha p1 p2 ≠ .error .WeakPassword ∧
       ∀ s2, edit_user E s username nu ha p1 p2 = .ok s2 →
         s2.users.map (fun u => u.password_hash) = s.users.map (fun u => u.password_hash))) ∧
    (∀ q1 q2, p1 = some q1 → p2 = some q2 → (¬ strTrim q1 = "" ∨ ¬ strTrim q2 = "") →
      nu.any (fun u => (strTrim u) == "") = false →
      nu.any (fun u => !wordMatch u) = false →
      ((q1 ≠ q2 → edit_user E s username nu ha p1 p2 = .error .PasswordsDiffer) ∧
       (q1 = q2 → E.score q1 < 80 →
         edit_user E s username nu ha p1 p2 = .error .WeakPassword))) := by
  constructor
  · intro hcase
    have hph : editUserPasswordHash E p1 p2 = .ok none := by
      rcases hcase with h | h | ⟨q1, q2, hq1, hq2, hb1, hb2⟩
      · subst h; cases p2 <;> rfl
      · subst h; cases p1 <;> rfl
      · subst hq1; subst hq2
        show (if ¬ strTrim q1 = "" ∨ ¬ strTrim q2 = "" then
            if q1 ≠ q2 then (.error .PasswordsDiffer : Except DatabaseError (Option String))
            else if E.score q1 < 80 then .error .WeakPassword
            else .ok (some (E.hashPW q1))
          else .ok none) = .ok none
        rw [if_neg (by push_neg; exact ⟨hb1, hb2⟩)]
    by_cases hg1 : nu.any (fun u => (strTrim u) == "") = true
    · have he : edit_user E s username nu ha p1 p2 = .error .EmptyFields := by
        unfold edit_user; exact if_pos hg1
      rw [he]
      exact ⟨by decide, by decide, fun s2 h => Except.noConfusion h⟩
    by_cases hg2 : nu.any (fun u => !wordMatch u) = true
    · have he : edit_user E s username nu ha p1 p2 = .error .IllegalUsername := by
        unfold edit_user; rw [if_neg hg1]; exact if_pos hg2
      rw [he]
      exact ⟨by decide, by decide, fun s2 h => Except.noConfusion h⟩
    cases hrow : s.users.find? (fun u => u.username == username) with
    | none =>
      rw [edit_user_eq_of_find_none E s username nu ha p1 p2 none hg1 hg2 hph hrow]
      refine ⟨fun h => Except.noConfusion h, fun h => Except.noConfusion h, fun s2 h => ?_⟩
      obtain rfl := Except.ok.inj h
      rfl
    | some row =>
      rw [edit_user_eq_of_find_some E s username nu ha p1 p2 none row hg1 hg2 hph hrow]
      by_cases hc : nu.getD row.username ≠ row.username ∧
          s.users.any (fun u => u.username == nu.getD row.username) = true
      · rw [if_pos hc]
        exact ⟨by decide, by decide, fun s2 h => Except.noConfusion h⟩
      · rw [if_neg hc]
        refine ⟨fun h => Except.noConfusion h, fun h => Except.noConfusion h, fun s2 h => ?_⟩
        obtain rfl := Except.ok.inj h
        rw [List.map_map]
        refine map_congr_mem _ _ _ (fun u hu => ?_)
        simp only [Function.comp_apply]
        by_cases hm : (u.username == username) = true
        · rw [if_pos hm]
          simp only [Option.getD_none]
        · rw [if_neg hm]
  · intro q1 q2 hq1 hq2 hnb hg1 hg2
    subst hq1; subst hq2
    constructor
    · intro hne
      refine edit_user_eq_of_hash_error E s username nu ha (some q1) (some q2)
        .PasswordsDiffer (by simp [hg1]) (by simp [hg2]) ?_
      show (if ¬ strTrim q1 = "" ∨ ¬ strTrim q2 = "" then
          if q1 ≠ q2 then (.error .PasswordsDiffer : Except DatabaseError (Option String))
          else if E.score q1 < 80 then .error .WeakPassword
          else .ok (some (E.hashPW q1))
        else .ok none) = .error .PasswordsDiffer
      rw [if_pos hnb, if_pos hne]
    · intro hpe hsc
      refine edit_user_eq_of_hash_error E s username nu ha (some q1) (some q2)
        .WeakPassword (by simp [hg1]) (by simp [hg2]) ?_
      show (if ¬ strTrim q1 = "" ∨ ¬ strTrim q2 = "" then
          if q1 ≠ q2 then (.error .PasswordsDiffer : Except DatabaseError (Option String))
          else if E.score q1 < 80 then .error .WeakPassword
          else .ok (some (E.hashPW q1))
        else .ok none) = .error .WeakPassword
      rw [if_pos hnb, if_neg (not_not_intro hpe), if_pos hsc]

/-- Witness for C5 at concrete inputs: no password error and no change with
both fields absent; `PasswordsDiffer` on a mismatch; `WeakPassword` on a weak
matching pair. -/
theorem c5_password_change_policy_witness :
    edit_user E0 s0 "bob" none none none none ≠ .error .PasswordsDiffer ∧
    edit_user E0 s0 "bob" none none (some "abcd") (some "efgh") = .error .PasswordsDiffer ∧
    edit_user E0 s0 "bob" none none (some "short") (some "short") = .error .WeakPassword :=
  ⟨((c5_password_change_policy E0 s0 "bob" none none none none).1 (Or.inl rfl)).1,
   ((c5_password_change_policy E0 s0 "bob" none none (some "abcd") (some "efgh")).2
     "abcd" "efgh" rfl rfl (by decide) rfl rfl).1 (by decide),
   ((c5_password_change_policy E0 s0 "bob" none none (some "short") (some "short")).2
     "short" "short" rfl rfl (by decide) rfl rfl).2 rfl (by decide)⟩

/-! ### C6: the error kind of a user-rename conflict -/

/-- C6 counterexample: renaming `alice` onto the existing username `bob`
yields `DuplicateItem`, not the claimed `DuplicateUser`. -/
theorem c6_rename_conflict_counterexample :
    edit_user E0 sAB "alice" (some "bob") none none none = .error .DuplicateItem ∧
    edit_user E0 sAB "alice" (some "bob") none none none ≠ .error .DuplicateUser :=
  ⟨by decide, by decide⟩

/-- C6 (amended): when `edit_user` renames an existing user onto a different
username that already exists, the store's uniqueness-conflict signal is
translated to the reused `DuplicateItem` error kind (not `DuplicateUser`). -/
theorem c6_rename_conflict_duplicate_item (E : Externals) (s : DBState)
    (username newName : String) (ha : Option Bool) (p1 p2 : Option String)
    (ph : Option String) (row : UserRow)
    (hb : ¬ strTrim newName = "") (hw : wordMatch newName = true)
    (hph : editUserPasswordHash E p1 p2 = .ok ph)
    (hrow : s.users.find? (fun u => u.username == username) = some row)
    (hne : newName ≠ row.username)
    (hex : s.users.any (fun u => u.username == newName) = true) :
    edit_user E s username (some newName) ha p1 p2 = .error .DuplicateItem := by
  rw [edit_user_eq_of_find_some E s username (some newName) ha p1 p2 ph row
    (by simp [hb]) (by simp [hw]) hph hrow, if_pos ⟨hne, hex⟩]

/-- Witness for C6: the rename conflict of `alice` onto `bob` in `sAB`. -/
theorem c6_rename_conflict_duplicate_item_witness :
    edit_user E0 sAB "alice" (some "bob") (none : Option Bool) none none =
      .error .DuplicateItem :=
  c6_rename_conflict_duplicate_item E0 sAB "alice" "bob" none none none none aliceRow
    (by decide) (by decide) rfl (by decide) (by decide) (by decide)

/-! ### C7: the page invariant -/

/-- C7: every `Page` returned by `get_items`, `get_users`, `get_item_ratings`
or `get_user_ratings` satisfies `0 ≤ current_page < number_of_pages`, where
`number_of_pages` is the ceiling of the matching row count divided by the page
size — 12 for the item and user lists, 3 for the rating histories. -/
theorem c7_page_invariant (E : Externals) (s : DBState) (p : Option Int)
    (q : Option String) (locator username : String) (pgI : Page Item) (pgU : Page User)
    (pgRI : Page RatingItem) (pgRU : Page RatingUser) :
    (get_items E s p q = some pgI →
      0 ≤ pgI.current_page ∧ pgI.current_page < pgI.number_of_pages ∧
      pgI.number_of_pages = ((divCeil (itemsMatchCount E s q) 12 : Nat) : Int)) ∧
    (get_users E s p q = some pgU →
      0 ≤ pgU.current_page ∧ pgU.current_page < pgU.number_of_pages ∧
      pgU.number_of_pages = ((divCeil (usersMatchCount E s q) 12 : Nat) : Int)) ∧
    (get_item_ratings s p locator = some pgRI →
      0 ≤ pgRI.current_page ∧ pgRI.current_page < pgRI.number_of_pages ∧
      pgRI.number_of_pages = ((divCeil (itemRatingsCount s locator) 3 : Nat) : Int)) ∧
    (get_user_ratings s p username = some pgRU →
      0 ≤ pgRU.current_page ∧ pgRU.current_page < pgRU.number_of_pages ∧
      pgRU.number_of_pages = ((divCeil (userRatingsCount s username) 3 : Nat) : Int)) := by
  refine ⟨fun h => ?_, fun h => ?_, fun h => ?_, fun h => ?_⟩
  · unfold get_items at h
    split at h
    next hcond =>
      obtain rfl := Option.some.inj h
      exact ⟨hcond.1, hcond.2, rfl⟩
    next => exact Option.noConfusion h
  · unfold get_users at h
    split at h
    next hcond =>
      obtain rfl := Option.some.inj h
      exact ⟨hcond.1, hcond.2, rfl⟩
    next => exact Option.noConfusion h
  · unfold get_item_ratings at h
    split at h
    next hcond =>
      obtain rfl := Option.some.inj h
      exact ⟨hcond.1, hcond.2, rfl⟩
    next => exact Option.noConfusion h
  · unfold get_user_ratings at h
    split at h
    next hcond =>
      obtain rfl := Option.some.inj h
      exact ⟨hcond.1, hcond.2, rfl⟩
    next => exact Option.noConfusion h

/-- Witness for C7: the four concrete pages of state `s1` all satisfy the
invariant. -/
theorem c7_page_invariant_witness :
    (0 ≤ pgI0.current_page ∧ pgI0.current_page < pgI0.number_of_pages ∧
      pgI0.number_of_pages = ((divCeil (itemsMatchCount E0 s1 none) 12 : Nat) : Int)) ∧
    (0 ≤ pgU0.current_page ∧ pgU0.current_page < pgU0.number_of_pages ∧
      pgU0.number_of_pages = ((divCeil (usersMatchCount E0 s1 none) 12 : Nat) : Int)) ∧
    (0 ≤ pgRI0.current_page ∧ pgRI0.current_page < pgRI0.number_of_pages ∧
      pgRI0.number_of_pages = ((divCeil (itemRatingsCount s1 "m1") 3 : Nat) : Int)) ∧
    (0 ≤ pgRU0.current_page ∧ pgRU0.current_page < pgRU0.number_of_pages ∧
      pgRU0.number_of_pages = ((divCeil (userRatingsCount s1 "bob") 3 : Nat) : Int)) :=
  ⟨(c7_page_invariant E0 s1 none none "m1" "bob" pgI0 pgU0 pgRI0 pgRU0).1 (by decide),
   (c7_page_invariant E0 s1 none none "m1" "bob" pgI0 pgU0 pgRI0 pgRU0).2.1 (by decide),
   (c7_page_invariant E0 s1 none none "m1" "bob" pgI0 pgU0 pgRI0 pgRU0).2.2.1 (by decide),
   (c7_page_invariant E0 s1 none none "m1" "bob" pgI0 pgU0 pgRI0 pgRU0).2.2.2 (by decide)⟩


/-! ### C2: rate is a clamping upsert -/

/-- A list that is pairwise non-co-satisfying for `p` and has a `p`-match
filters to a singleton. -/
theorem filter_singleton_of_pairwise {α : Type} (p : α → Bool) (l : List α)
    (hp : l.Pairwise (fun a b => ¬(p a = true ∧ p b = true)))
    (hany : l.any p = true) : ∃ v, l.filter p = [v] ∧ p v = true := by
  induction l with
  | nil => simp at hany
  | cons x xs ih =>
    rcases List.pairwise_cons.mp hp with ⟨hx, hxs⟩
    by_cases hpx : p x = true
    · refine ⟨x, ?_, hpx⟩
      have hnil : xs.filter p = [] :=
        List.filter_eq_nil_iff.mpr (fun b hb hpb => (hx b hb) ⟨hpx, hpb⟩)
      rw [List.filter_cons_of_pos hpx, hnil]
    · have hany2 : xs.any p = true := by
        rcases List.any_eq_true.mp hany with ⟨b, hb, hpb⟩
        rcases List.mem_cons.mp hb with rfl | hbxs
        · exact absurd hpb hpx
        · exact List.any_eq_true.mpr ⟨b, hbxs, hpb⟩
      obtain ⟨v, hv, hpv⟩ := ih hxs hany2
      refine ⟨v, ?_, hpv⟩
      rw [List.filter_cons_of_neg hpx, hv]

/-- Filtering commutes with mapping a function that does not change the
predicate's verdict. -/
theorem filter_map_of_pred_stable {α : Type} (p : α → Bool) (f : α → α)
    (hf : ∀ a, p (f a) = p a) (l : List α) :
    (l.map f).filter p = (l.filter p).map f := by
  induction l with
  | nil => rfl
  | cons x xs ih =>
    rw [List.map_cons]
    by_cases hx : p x = true
    · rw [List.filter_cons_of_pos ((hf x).trans hx), List.filter_cons_of_pos hx,
        List.map_cons, ih]
    · have hx2 : ¬ p (f x) = true := by rw [hf]; exact hx
      rw [List.filter_cons_of_neg hx2, List.filter_cons_of_neg hx, ih]

/-- `rate_item`'s fallback update does not change which rows match the
(item, user) key. -/
theorem rate_pred_stable (iid uid : Nat) (c : Int) (t : Nat) (v : ReviewRow) :
    ((if (v.item_id == iid && v.user_id == uid) = true then
        { v with rating := c, date := t } else v).item_id == iid &&
      (if (v.item_id == iid && v.user_id == uid) = true then
        { v with rating := c, date := t } else v).user_id == uid) =
    (v.item_id == iid && v.user_id == uid) := by
  by_cases hv : (v.item_id == iid && v.user_id == uid) = true
  · rw [if_pos hv]
  · rw [if_neg hv]

/-- One `rate_item` call for an existing item and user, against a state
satisfying the reviews unique-constraint, succeeds and leaves exactly one
review row for the pair: the clamped rating with timestamp `now`. -/
theorem rate_item_filter (s : DBState) (username locator : String) (r : Int)
    (iid uid : Nat)
    (hP : s.reviews.Pairwise (fun a b =>
      ¬((a.item_id == iid && a.user_id == uid) = true ∧
        (b.item_id == iid && b.user_id == uid) = true)))
    (hi : findItemId s locator = some iid) (hu : findUserId s username = some uid) :
    ∃ s1, rate_item s username locator r = .ok s1 ∧
      s1.reviews.filter (fun v => v.item_id == iid && v.user_id == uid) =
        [{ item_id := iid, user_id := uid, rating := min (max r 1) 10, date := s.now }] ∧
      s1.users = s.users ∧ s1.items = s.items := by
  rw [rate_item_eq_of_ids s username locator r iid uid hi hu]
  by_cases hex : s.reviews.any (fun v => v.item_id == iid && v.user_id == uid) = true
  · rw [if_pos hex]
    obtain ⟨v0, hf0, hp0⟩ := filter_singleton_of_pairwise _ _ hP hex
    refine ⟨_, rfl, ?_, rfl, rfl⟩
    rw [filter_map_of_pred_stable _ _ (fun v => rate_pred_stable iid uid _ _ v), hf0]
    simp only [List.map_cons, List.map_nil]
    rw [if_pos hp0]
    have hids : v0.item_id = iid ∧ v0.user_id = uid := by simpa using hp0
    rw [hids.1, hids.2]
  · rw [if_neg hex]
    refine ⟨_, rfl, ?_, rfl, rfl⟩
    have hex2 : s.reviews.any (fun v => v.item_id == iid && v.user_id == uid) = false := by
      simpa using hex
    have hnil : s.reviews.filter (fun v => v.item_id == iid && v.user_id == uid) = [] :=
      List.filter_eq_nil_iff.mpr (fun a ha hpa =>
        absurd hpa (List.any_eq_false.mp hex2 a ha))
    rw [List.filter_append, hnil, List.nil_append,
      List.filter_cons_of_pos (by simp), List.filter_nil]

/-- C2: `rate_item` first clamps the rating to [1,10] with `.max(1).min(10)`,
attempts the insert, and only on the key's unique-constraint conflict falls
back to the update setting the clamped rating and `date = now()`.  Two
successive calls for the same (item, user) pair — the second at time `t2` —
therefore leave exactly one review row for the pair, holding `clamp(r2,1,10)`
and the refreshed timestamp `t2`; the first call likewise leaves exactly one
row with `clamp(r,1,10)`. -/
theorem c2_rate_upsert (s : DBState) (username locator : String) (r r2 : Int)
    (t2 : Nat) (iid uid : Nat)
    (hwf : wf s = true)
    (hi : findItemId s locator = some iid)
    (hu : findUserId s username = some uid) :
    ∃ s1 s2,
      rate_item s username locator r = .ok s1 ∧
      s1.reviews.filter (fun v => v.item_id == iid && v.user_id == uid) =
        [{ item_id := iid, user_id := uid, rating := min (max r 1) 10, date := s.now }] ∧
      rate_item { s1 with now := t2 } username locator r2 = .ok s2 ∧
      s2.reviews.filter (fun v => v.item_id == iid && v.user_id == uid) =
        [{ item_id := iid, user_id := uid, rating := min (max r2 1) 10, date := t2 }] ∧
      s2.users = s.users ∧ s2.items = s.items := by
  have hwfr := hwf
  simp only [wf, Bool.and_eq_true] at hwfr
  have hPW := (pairwiseBool_eq_true _ _).mp hwfr.2
  have hP : s.reviews.Pairwise (fun a b =>
      ¬((a.item_id == iid && a.user_id == uid) = true ∧
        (b.item_id == iid && b.user_id == uid) = true)) := by
    refine List.Pairwise.imp ?_ hPW
    intro a b hab hcon
    rcases hcon with ⟨ha, hb⟩
    simp only [Bool.and_eq_true, beq_iff_eq] at ha hb
    simp at hab
    rcases hab with h1 | h2
    · exact h1 (ha.1.trans hb.1.symm)
    · exact h2 (ha.2.trans hb.2.symm)
  obtain ⟨s1, hok1, hf1, hus1, hit1⟩ :=
    rate_item_filter s username locator r iid uid hP hi hu
  have hi2 : findItemId { s1 with now := t2 } locator = some iid := by
    show (s1.items.find? (fun i => i.locator == locator)).map (fun i => i.id) = some iid
    rw [hit1]
    exact hi
  have hu2 : findUserId { s1 with now := t2 } username = some uid := by
    show (s1.users.find? (fun u => u.username == username)).map (fun u => u.id) = some uid
    rw [hus1]
    exact hu
  have hany0 : s1.reviews.any (fun v => v.item_id == iid && v.user_id == uid) = true := by
    by_contra hc
    have hc2 : s1.reviews.any (fun v => v.item_id == iid && v.user_id == uid) = false := by
      simpa using hc
    have hfnil : s1.reviews.filter (fun v => v.item_id == iid && v.user_id == uid) = [] :=
      List.filter_eq_nil_iff.mpr (fun a ha hpa =>
        absurd hpa (List.any_eq_false.mp hc2 a ha))
    rw [hf1] at hfnil
    exact List.noConfusion hfnil
  have hany1 : ({ s1 with now := t2 } : DBState).reviews.any
      (fun v => v.item_id == iid && v.user_id == uid) = true := hany0
  refine ⟨s1, { s1 with reviews := s1.reviews.map (fun v => if v.item_id == iid && v.user_id == uid then { v with rating := min (max r2 1) 10, date := t2 } else v), now := t2 }, hok1, hf1, ?_, ?_, hus1, hit1⟩
  · rw [rate_item_eq_of_ids { s1 with now := t2 } username locator r2 iid uid hi2 hu2,
      if_pos hany1]
  · show (s1.reviews.map (fun v => if v.item_id == iid && v.user_id == uid then { v with rating := min (max r2 1) 10, date := t2 } else v)).filter (fun v => v.item_id == iid && v.user_id == uid) = _
    rw [filter_map_of_pred_stable _ _ (fun v => rate_pred_stable iid uid _ _ v), hf1]
    simp only [List.map_cons, List.map_nil]
    rw [if_pos (by simp)]

/-- Witness for C2: rating `m1` as `bob` with 15 (clamped to 10) and then,
at time 200, with 0 (clamped to 1) leaves exactly one review row. -/
theorem c2_rate_upsert_witness :
    ∃ s1 s2,
      rate_item s0 "bob" "m1" 15 = .ok s1 ∧
      s1.reviews.filter (fun v => v.item_id == 1 && v.user_id == 1) =
        [{ item_id := 1, user_id := 1, rating := min (max 15 1) 10, date := s0.now }] ∧
      rate_item { s1 with now := 200 } "bob" "m1" 0 = .ok s2 ∧
      s2.reviews.filter (fun v => v.item_id == 1 && v.user_id == 1) =
        [{ item_id := 1, user_id := 1, rating := min (max 0 1) 10, date := 200 }] ∧
      s2.users = s0.users ∧ s2.items = s0.items :=
  c2_rate_upsert s0 "bob" "m1" 15 0 200 1 1 (by decide) (by decide) (by decide)

end ZAI
